import Mathlib

/-!
Shallow embedding of the wallet ledger and transfer engine of
`src/tensortrade/oms/wallets/wallet.py`.

Python `Decimal` amounts are embedded as exact rationals (`ℚ`); rounding to an
instrument's decimal precision (`Decimal.quantize`, banker's rounding) is made
explicit through `qz`.  Python exceptions are embedded as `Except Err`: in
`wallet.py` every `raise` happens before any field of the wallet is mutated, so
an `Except.error` result faithfully represents "the call raised and the wallet
and ledger are unchanged".  The process-wide ledger is passed explicitly; every
mutating operation takes the ledger and returns the extended ledger.
-/

namespace TensorTrade

/-- Modelled from the spec: an instrument has a symbol (used in ledger account
labels) and a decimal digit count `precision` used for quantization and for
the dust tolerance. -/
structure Instrument where
  symbol : String
  precision : Nat
deriving DecidableEq

/-- Round a rational to the nearest integer, ties to even (the rounding used
by Python `Decimal.quantize` with the default `ROUND_HALF_EVEN` context). -/
def rndHalfEven (x : ℚ) : ℤ :=
  let n := ⌊x⌋
  let r := x - n
  if r < 1/2 then n
  else if 1/2 < r then n + 1
  else if 2 ∣ n then n else n + 1

/-- Modelled from the spec: `quantize()` rounds a size to the instrument's
configured decimal precision `p` (round to nearest, ties to even). -/
def qz (p : Nat) (x : ℚ) : ℚ :=
  (rndHalfEven (x * 10 ^ p) : ℚ) / 10 ^ p

/-- Modelled from the spec: a fixed-precision amount bound to one instrument,
optionally tagged with a lock/path identifier (`path_id` present iff locked). -/
structure Quantity where
  instrument : Instrument
  size : ℚ
  path_id : Option String
deriving DecidableEq

/-- `Quantity.quantize`: round the size to the instrument's precision. -/
def Quantity.quantize (q : Quantity) : Quantity :=
  { q with size := qz q.instrument.precision q.size }

/-- `Quantity.free()`: strip the lock tag. -/
def Quantity.free (q : Quantity) : Quantity :=
  { q with path_id := none }

/-- `Quantity.lock_for(path_id)`: attach the lock tag. -/
def Quantity.lock_for (q : Quantity) (pid : Option String) : Quantity :=
  { q with path_id := pid }

/-- `quantity * fee_rate`: scalar multiplication of a quantity. -/
def Quantity.mulRate (q : Quantity) (r : ℚ) : Quantity :=
  { q with size := q.size * r }

/-- Modelled from the spec: an exchange exposes a stable `name` (for ledger
account labels) and an `options.commission` fee rate. -/
structure Exchange where
  name : String
  commission : ℚ
deriving DecidableEq

/-- Modelled from the spec: an exchange pair carries a conversion `price`
between a base and a quote instrument. -/
structure ExchangePair where
  base : Instrument
  quote : Instrument
  price : ℚ
deriving DecidableEq

/-- Modelled from the spec: `convert(pair)` rescales a quantity between the
instruments of the pair using its price (base → quote divides by the price,
quote → base multiplies), preserving the lock tag. -/
def Quantity.convert (q : Quantity) (pair : ExchangePair) : Quantity :=
  if q.instrument = pair.base then
    ⟨pair.quote, q.size / pair.price, q.path_id⟩
  else
    ⟨pair.base, q.size * pair.price, q.path_id⟩

/-- One committed ledger record: `Ledger.commit(wallet, quantity, source,
target, memo)` (the wallet identity itself is not needed by any claim). -/
structure LedgerRecord where
  quantity : Quantity
  source : String
  target : String
  memo : String
deriving DecidableEq

/-- The append-only transaction ledger. -/
abbrev Ledger := List LedgerRecord

/-- The exceptions raised by `wallet.py`, plus the fatal conservation
assertion of `Wallet.transfer`. -/
inductive Err where
  | InsufficientFunds (available requested : ℚ)
  | DoubleLockedQuantity (q : Quantity)
  | DoubleUnlockedQuantity (q : Quantity)
  | QuantityNotLocked (q : Quantity)
  | AssertionFailed
deriving DecidableEq

/-- The `_locked` dict: an insertion-ordered association list from path id to
locked quantity (Python dict semantics: lookup and in-place update of the
first—unique—occurrence of a key, insertion at the end otherwise). -/
abbrev LockedMap := List (Option String × Quantity)

/-- Dict lookup: `self._locked.get(pid)`. -/
def lookupL : LockedMap → Option String → Option Quantity
  | [], _ => none
  | (k, v) :: rest, pid => if k = pid then some v else lookupL rest pid

/-- Dict write: `self._locked[pid] = v` (replace in place, or append). -/
def setL : LockedMap → Option String → Quantity → LockedMap
  | [], pid, v => [(pid, v)]
  | (k, w) :: rest, pid, v =>
      if k = pid then (pid, v) :: rest else (k, w) :: setL rest pid v

/-- The `Wallet` state: exchange, instrument, the construction-time size used
by `reset`, the free balance and the locked sub-balances. -/
structure Wallet where
  exchange : Exchange
  instrument : Instrument
  initial_size : ℚ
  balance : Quantity
  locked : LockedMap
deriving DecidableEq

/-- `Wallet.__init__(exchange, balance)`: record the raw size as
`_initial_size`, quantize the balance, start with no locked funds. -/
def mkWallet (ex : Exchange) (balance : Quantity) : Wallet :=
  ⟨ex, balance.instrument, balance.size, balance.quantize, []⟩

/-- The `<exchange>:<instrument>/free` ledger account label. -/
def Wallet.freeLabel (w : Wallet) : String :=
  w.exchange.name ++ ":" ++ w.instrument.symbol ++ "/free"

/-- The `<exchange>:<instrument>/locked` ledger account label. -/
def Wallet.lockedLabel (w : Wallet) : String :=
  w.exchange.name ++ ":" ++ w.instrument.symbol ++ "/locked"

/-- The dust tolerance `Decimal(10)**(-precision+2)` of `lock`/`withdraw`. -/
def Wallet.dust (w : Wallet) : ℚ :=
  (10 : ℚ) ^ (-(w.instrument.precision : ℤ) + 2)

/-- Sum of the sizes of all locked sub-balances. -/
def Wallet.lockedTotal (w : Wallet) : ℚ :=
  (w.locked.map (fun kv => kv.2.size)).sum

/-- `Wallet.total_balance` (as a size): free balance plus all locked funds. -/
def Wallet.total_balance (w : Wallet) : ℚ :=
  w.balance.size + w.lockedTotal

/-- `Wallet.lock(quantity, path_id, reason)` (wallet.py lines 82–133). -/
def Wallet.lock (w : Wallet) (led : Ledger) (q : Quantity) (pid : Option String)
    (reason : String) : Except Err (Quantity × Wallet × Ledger) :=
  if q.path_id.isSome then .error (.DoubleLockedQuantity q)
  else if q.size > w.balance.size ∧ q.size - w.balance.size > w.dust then
    .error (.InsufficientFunds w.balance.size q.size)
  else
    let q0 := if q.size > w.balance.size then w.balance else q
    let bal1 : Quantity := { w.balance with size := w.balance.size - q0.size }
    let q1 : Quantity := q0.lock_for pid
    let entry : Quantity :=
      match lookupL w.locked pid with
      | none => q1
      | some e => { e with size := e.size + q1.size }
    .ok (q1,
         { w with balance := bal1.quantize, locked := setL w.locked pid entry.quantize },
         led ++ [⟨q1, w.freeLabel, w.lockedLabel, "LOCK (" ++ reason ++ ")"⟩])

/-- `Wallet.unlock(quantity, reason)` (wallet.py lines 135–183). -/
def Wallet.unlock (w : Wallet) (led : Ledger) (q : Quantity) (reason : String) :
    Except Err (Quantity × Wallet × Ledger) :=
  if q.path_id.isSome = false then .error (.DoubleUnlockedQuantity q)
  else
    match lookupL w.locked q.path_id with
    | none => .error (.QuantityNotLocked q)
    | some e =>
      if q.size > e.size then .error (.InsufficientFunds e.size q.size)
      else
        let entry : Quantity := { e with size := e.size - q.size }
        let bal : Quantity := { w.balance with size := w.balance.size + q.size }
        .ok (q,
             { w with balance := bal.quantize,
                      locked := setL w.locked q.path_id entry.quantize },
             led ++ [⟨q, w.lockedLabel, w.freeLabel,
                      "UNLOCK " ++ w.instrument.symbol ++ " (" ++ reason ++ ")"⟩])

/-- `Wallet.deposit(quantity, reason)` (wallet.py lines 185–216). -/
def Wallet.deposit (w : Wallet) (led : Ledger) (q : Quantity) (reason : String) :
    Except Err (Quantity × Wallet × Ledger) :=
  let w1 :=
    match q.path_id, lookupL w.locked q.path_id with
    | some _, none => { w with locked := setL w.locked q.path_id q }
    | some _, some e =>
        { w with locked := setL w.locked q.path_id { e with size := e.size + q.size } }
    | none, _ => { w with balance := { w.balance with size := w.balance.size + q.size } }
  .ok (q, { w1 with balance := w1.balance.quantize },
       led ++ [⟨q, w.exchange.name, w.lockedLabel, "DEPOSIT (" ++ reason ++ ")"⟩])

/-- The ledger record committed by `Wallet.withdraw`. -/
def withdrawRec (w : Wallet) (q : Quantity) (reason : String) : LedgerRecord :=
  ⟨q, w.lockedLabel, w.exchange.name, "WITHDRAWAL (" ++ reason ++ ")"⟩

/-- `Wallet.withdraw(quantity, reason)` (wallet.py lines 218–258).  The three
branches: locked quantity with an existing entry (clamp-or-fail against the
entry), locked quantity with no entry (the silent no-op branch), and free
quantity (clamp-or-fail against the balance). -/
def Wallet.withdraw (w : Wallet) (led : Ledger) (q : Quantity) (reason : String) :
    Except Err (Quantity × Wallet × Ledger) :=
  match q.path_id, lookupL w.locked q.path_id with
  | some _, some e =>
      if q.size > e.size ∧ q.size - e.size > w.dust then
        .error (.InsufficientFunds e.size q.size)
      else
        let q1 := if q.size > e.size then e else q
        let entry : Quantity := { e with size := e.size - q1.size }
        .ok (q1,
             { w with balance := w.balance.quantize,
                      locked := setL w.locked q.path_id entry },
             led ++ [withdrawRec w q1 reason])
  | some _, none =>
      .ok (q, { w with balance := w.balance.quantize }, led ++ [withdrawRec w q reason])
  | none, _ =>
      if q.size > w.balance.size ∧ q.size - w.balance.size > w.dust then
        .error (.InsufficientFunds w.balance.size q.size)
      else
        let q1 := if q.size > w.balance.size then w.balance else q
        let bal : Quantity := { w.balance with size := w.balance.size - q1.size }
        .ok (q1, { w with balance := bal.quantize }, led ++ [withdrawRec w q1 reason])

/-- `Wallet.reset()` (wallet.py lines 366–369): restore the balance from
`_initial_size` and clear the locked map; no ledger commit. -/
def Wallet.reset (w : Wallet) : Wallet :=
  { w with balance := Quantity.quantize ⟨w.instrument, w.initial_size, none⟩,
           locked := [] }

/-- `reset` on a wallet-and-ledger state: the ledger is untouched because
`Wallet.reset` commits nothing. -/
def resetPair (s : Wallet × Ledger) : Wallet × Ledger :=
  (s.1.reset, s.2)

/-- The order side of a transfer. -/
inductive TradeSide where
  | BUY
  | SELL
deriving DecidableEq

/-- The record returned by a completed transfer. -/
structure Transfer where
  quantity : Quantity
  commission : Quantity
  price : ℚ
deriving DecidableEq

/-- The `check_diff(a, b)` helper of `Wallet.transfer`: a symmetric strict
`1e-5` tolerance comparison. -/
def checkDiff (a b : ℚ) : Prop :=
  if a > b then a - b < 1/100000 else b - a < 1/100000

instance (a b : ℚ) : Decidable (checkDiff a b) := by
  unfold checkDiff
  infer_instance

/-- `Wallet.transfer(source, target, quantity, exchange_pair, side)`
(wallet.py lines 277-364): quantize, withdraw from source, convert, deposit
into target, pay the side-dependent commission (lock then withdraw, from the
source wallet on BUY and from the target wallet on SELL), then assert the
conservation equation `check_diff` within `1e-5` against the total-balance
snapshots taken at entry.  (Memo strings built from formatted quantities are
abbreviated to constant tags; no claim concerns their text.) -/
def Wallet.transfer (source target : Wallet) (led : Ledger) (q : Quantity)
    (pair : ExchangePair) (side : TradeSide) :
    Except Err (Transfer × Wallet × Wallet × Ledger) :=
  match source.withdraw led q.quantize "FILL ORDER" with
  | .error e => .error e
  | .ok (q1, s1, l1) =>
    match target.deposit l1 (q1.convert pair) "TRADED" with
    | .error e => .error e
    | .ok (cv, t1, l2) =>
      match side with
      | .BUY =>
        match s1.lock l2 (q1.mulRate source.exchange.commission).free q1.path_id
            "LOCK BUY COMMISSION" with
        | .error e => .error e
        | .ok (c1, s2, l3) =>
          match s2.withdraw l3 c1 "PAY BUY COMMISSION" with
          | .error e => .error e
          | .ok (c2, s3, l4) =>
            if checkDiff (source.total_balance - s3.total_balance)
                ((Quantity.convert ⟨target.instrument,
                    t1.total_balance - target.total_balance, none⟩ pair).size + c2.size) then
              .ok (⟨q1, c2, pair.price⟩, s3, t1, l4)
            else .error .AssertionFailed
      | .SELL =>
        match t1.lock l2 (cv.mulRate source.exchange.commission).free q1.path_id
            "LOCK SELL COMMISSION" with
        | .error e => .error e
        | .ok (c1, t2, l3) =>
          match t2.withdraw l3 c1 "PAY SELL COMMISSION" with
          | .error e => .error e
          | .ok (c2, t3, l4) =>
            if checkDiff (source.total_balance - s1.total_balance)
                (Quantity.convert ⟨target.instrument,
                    (t3.total_balance - target.total_balance) + c2.size, none⟩ pair).size then
              .ok (⟨q1, c2, pair.price⟩, s1, t3, l4)
            else .error .AssertionFailed

/-- One wallet operation of a client call sequence. -/
inductive Op where
  | lock (q : Quantity) (pid : Option String) (reason : String)
  | unlock (q : Quantity) (reason : String)
  | deposit (q : Quantity) (reason : String)
  | withdraw (q : Quantity) (reason : String)

/-- Apply one operation to a wallet-and-ledger state; a raised exception
leaves the state unchanged (every `raise` in `wallet.py` happens before any
mutation). -/
def applyOp (s : Wallet × Ledger) (op : Op) : Wallet × Ledger :=
  match op with
  | .lock q pid r =>
      match s.1.lock s.2 q pid r with
      | .ok (_, w, l) => (w, l)
      | .error _ => s
  | .unlock q r =>
      match s.1.unlock s.2 q r with
      | .ok (_, w, l) => (w, l)
      | .error _ => s
  | .deposit q r =>
      match s.1.deposit s.2 q r with
      | .ok (_, w, l) => (w, l)
      | .error _ => s
  | .withdraw q r =>
      match s.1.withdraw s.2 q r with
      | .ok (_, w, l) => (w, l)
      | .error _ => s

/-- Apply a finite sequence of operations. -/
def applyOps (s : Wallet × Ledger) (ops : List Op) : Wallet × Ledger :=
  ops.foldl applyOp s

/-! ## Helper lemmas -/

theorem rndHalfEven_intCast (k : ℤ) : rndHalfEven (k : ℚ) = k := by
  unfold rndHalfEven
  norm_num

theorem qz_int (p : Nat) (k : ℤ) : qz p ((k : ℚ) / 10 ^ p) = (k : ℚ) / 10 ^ p := by
  unfold qz
  have hp : ((10 : ℚ) ^ p) ≠ 0 := by positivity
  rw [div_mul_cancel₀ _ hp, rndHalfEven_intCast]

/-- A size fixed by quantization is an integer multiple of `10 ^ (-p)`. -/
theorem exists_int_of_qz_fix {p : Nat} {x : ℚ} (h : qz p x = x) :
    ∃ k : ℤ, x = (k : ℚ) / 10 ^ p := by
  exact ⟨rndHalfEven (x * 10 ^ p), h.symm⟩

theorem qz_sub_of_fix {p : Nat} {x y : ℚ} (hx : qz p x = x) (hy : qz p y = y) :
    qz p (x - y) = x - y := by
  obtain ⟨a, ha⟩ := exists_int_of_qz_fix hx
  obtain ⟨b, hb⟩ := exists_int_of_qz_fix hy
  have : x - y = ((a - b : ℤ) : ℚ) / 10 ^ p := by
    push_cast
    rw [ha, hb]
    ring
  rw [this, qz_int]

theorem qz_add_of_fix {p : Nat} {x y : ℚ} (hx : qz p x = x) (hy : qz p y = y) :
    qz p (x + y) = x + y := by
  obtain ⟨a, ha⟩ := exists_int_of_qz_fix hx
  obtain ⟨b, hb⟩ := exists_int_of_qz_fix hy
  have : x + y = ((a + b : ℤ) : ℚ) / 10 ^ p := by
    push_cast
    rw [ha, hb]
    ring
  rw [this, qz_int]

theorem lookupL_setL_self (l : LockedMap) (k : Option String) (v : Quantity) :
    lookupL (setL l k v) k = some v := by
  induction l with
  | nil => simp [setL, lookupL]
  | cons hd tl ih =>
      obtain ⟨k', v'⟩ := hd
      by_cases h : k' = k
      · simp [setL, lookupL, h]
      · simp [setL, lookupL, h, ih]

/-- Writing back the value found at a key is the identity on the map. -/
theorem setL_lookup_id {l : LockedMap} {k : Option String} {e : Quantity}
    (h : lookupL l k = some e) : setL l k e = l := by
  induction l with
  | nil => simp [lookupL] at h
  | cons hd tl ih =>
      obtain ⟨k', v'⟩ := hd
      by_cases hk : k' = k
      · subst hk
        simp [lookupL] at h
        simp [setL, h]
      · simp [lookupL, hk] at h
        simp [setL, hk, ih h]

/-- Overwriting the key just written collapses to one write. -/
theorem setL_setL (l : LockedMap) (k : Option String) (v v' : Quantity) :
    setL (setL l k v) k v' = setL l k v' := by
  induction l with
  | nil => simp [setL]
  | cons hd tl ih =>
      obtain ⟨k'', w⟩ := hd
      by_cases hk : k'' = k
      · simp [setL, hk]
      · simp [setL, hk, ih]

/-- `check_diff a b` is the symmetric strict tolerance `|a - b| < 1e-5`. -/
theorem checkDiff_iff {a b : ℚ} : checkDiff a b ↔ |a - b| < 1/100000 := by
  unfold checkDiff
  by_cases h : a > b
  · simp only [if_pos h, abs_sub_lt_iff]
    constructor
    · intro h1
      exact ⟨h1, by linarith⟩
    · intro h1
      exact h1.1
  · simp only [if_neg h, abs_sub_lt_iff]
    push_neg at h
    constructor
    · intro h1
      exact ⟨by linarith, h1⟩
    · intro h1
      exact h1.2

/-- The immutable identity fields of a wallet are preserved by `lock`. -/
theorem lock_preserves {w w' : Wallet} {led led' : Ledger} {q q' : Quantity}
    {pid : Option String} {r : String}
    (h : w.lock led q pid r = .ok (q', w', led')) :
    w'.exchange = w.exchange ∧ w'.instrument = w.instrument ∧
      w'.initial_size = w.initial_size := by
  unfold Wallet.lock at h
  split at h
  · exact absurd h (by simp)
  · split at h
    · exact absurd h (by simp)
    · simp only [Except.ok.injEq, Prod.mk.injEq] at h
      obtain ⟨-, hw, -⟩ := h
      subst hw
      exact ⟨rfl, rfl, rfl⟩

/-- The immutable identity fields of a wallet are preserved by `unlock`. -/
theorem unlock_preserves {w w' : Wallet} {led led' : Ledger} {q q' : Quantity}
    {r : String}
    (h : w.unlock led q r = .ok (q', w', led')) :
    w'.exchange = w.exchange ∧ w'.instrument = w.instrument ∧
      w'.initial_size = w.initial_size := by
  unfold Wallet.unlock at h
  split at h
  · exact absurd h (by simp)
  · split at h
    · exact absurd h (by simp)
    · split at h
      · exact absurd h (by simp)
      · simp only [Except.ok.injEq, Prod.mk.injEq] at h
        obtain ⟨-, hw, -⟩ := h
        subst hw
        exact ⟨rfl, rfl, rfl⟩

/-- The immutable identity fields of a wallet are preserved by `deposit`. -/
theorem deposit_preserves {w w' : Wallet} {led led' : Ledger} {q q' : Quantity}
    {r : String}
    (h : w.deposit led q r = .ok (q', w', led')) :
    w'.exchange = w.exchange ∧ w'.instrument = w.instrument ∧
      w'.initial_size = w.initial_size := by
  unfold Wallet.deposit at h
  simp only [Except.ok.injEq, Prod.mk.injEq] at h
  obtain ⟨-, hw, -⟩ := h
  subst hw
  split
  all_goals exact ⟨rfl, rfl, rfl⟩

/-- The immutable identity fields of a wallet are preserved by `withdraw`. -/
theorem withdraw_preserves {w w' : Wallet} {led led' : Ledger} {q q' : Quantity}
    {r : String}
    (h : w.withdraw led q r = .ok (q', w', led')) :
    w'.exchange = w.exchange ∧ w'.instrument = w.instrument ∧
      w'.initial_size = w.initial_size := by
  unfold Wallet.withdraw at h
  split at h
  · split at h
    · exact absurd h (by simp)
    · simp only [Except.ok.injEq, Prod.mk.injEq] at h
      obtain ⟨-, hw, -⟩ := h
      subst hw
      exact ⟨rfl, rfl, rfl⟩
  · simp only [Except.ok.injEq, Prod.mk.injEq] at h
    obtain ⟨-, hw, -⟩ := h
    subst hw
    exact ⟨rfl, rfl, rfl⟩
  · split at h
    · exact absurd h (by simp)
    · simp only [Except.ok.injEq, Prod.mk.injEq] at h
      obtain ⟨-, hw, -⟩ := h
      subst hw
      exact ⟨rfl, rfl, rfl⟩

/-- No operation of a call sequence changes a wallet's identity fields. -/
theorem applyOp_preserves (s : Wallet × Ledger) (op : Op) :
    (applyOp s op).1.exchange = s.1.exchange ∧
      (applyOp s op).1.instrument = s.1.instrument ∧
      (applyOp s op).1.initial_size = s.1.initial_size := by
  cases op with
  | lock q pid r =>
      rcases h : s.1.lock s.2 q pid r with e | ⟨q', w', l'⟩
      · simp [applyOp, h]
      · simp only [applyOp, h]
        simpa using lock_preserves h
  | unlock q r =>
      rcases h : s.1.unlock s.2 q r with e | ⟨q', w', l'⟩
      · simp [applyOp, h]
      · simp only [applyOp, h]
        simpa using unlock_preserves h
  | deposit q r =>
      rcases h : s.1.deposit s.2 q r with e | ⟨q', w', l'⟩
      · simp [applyOp, h]
      · simp only [applyOp, h]
        simpa using deposit_preserves h
  | withdraw q r =>
      rcases h : s.1.withdraw s.2 q r with e | ⟨q', w', l'⟩
      · simp [applyOp, h]
      · simp only [applyOp, h]
        simpa using withdraw_preserves h

/-- No finite call sequence changes a wallet's identity fields. -/
theorem applyOps_preserves (s : Wallet × Ledger) (ops : List Op) :
    (applyOps s ops).1.exchange = s.1.exchange ∧
      (applyOps s ops).1.instrument = s.1.instrument ∧
      (applyOps s ops).1.initial_size = s.1.initial_size := by
  induction ops generalizing s with
  | nil => exact ⟨rfl, rfl, rfl⟩
  | cons op rest ih =>
      have h1 := applyOp_preserves s op
      have h2 := ih (applyOp s op)
      simp only [applyOps, List.foldl_cons] at *
      exact ⟨h2.1.trans h1.1, h2.2.1.trans h1.2.1, h2.2.2.trans h1.2.2⟩

/-! ## Concrete fixtures used by witnesses and counterexamples -/

/-- A two-decimal fiat-like instrument. -/
def iUSD : Instrument := ⟨"USD", 2⟩

/-- An eight-decimal crypto-like instrument. -/
def iBTC : Instrument := ⟨"BTC", 8⟩

/-- A concrete exchange with a 0.1% commission rate. -/
def exE : Exchange := ⟨"E", 1/1000⟩

/-- A BTC wallet with 2 free and 0.5 locked under path `p1`. -/
def w8 : Wallet :=
  ⟨exE, iBTC, 2, ⟨iBTC, 2, none⟩, [(some "p1", ⟨iBTC, 1/2, some "p1"⟩)]⟩

/-- A USD wallet with 900 free and 100.10 locked under order path `o1`. -/
def wUSD : Wallet :=
  ⟨exE, iUSD, 1000, ⟨iUSD, 900, none⟩, [(some "o1", ⟨iUSD, 1001/10, some "o1"⟩)]⟩

/-- An empty BTC wallet. -/
def wBTC : Wallet := ⟨exE, iBTC, 0, ⟨iBTC, 0, none⟩, []⟩

/-- The USD/BTC pair at price 20000. -/
def pairUB : ExchangePair := ⟨iUSD, iBTC, 20000⟩

/-- A BTC wallet holding exactly 1, used at the dust boundary. -/
def wOne : Wallet := ⟨exE, iBTC, 1, ⟨iBTC, 1, none⟩, []⟩

/-! ## Claims -/

/-- C9: calling `lock` with a quantity that already carries a lock tag raises
`DoubleLockedQuantity`; since the raise precedes every mutation and commit,
the wallet-and-ledger state is left entirely unchanged (second conjunct). -/
theorem claim_C9 (w : Wallet) (led : Ledger) (q : Quantity) (pid : Option String)
    (r : String) (h : q.path_id.isSome) :
    w.lock led q pid r = .error (.DoubleLockedQuantity q) ∧
      applyOp (w, led) (.lock q pid r) = (w, led) := by
  have hlock : w.lock led q pid r = .error (.DoubleLockedQuantity q) := by
    unfold Wallet.lock
    rw [if_pos h]
  exact ⟨hlock, by simp [applyOp, hlock]⟩

/-- Witness for C9 at a concrete locked quantity. -/
theorem claim_C9_witness :
    w8.lock [] ⟨iBTC, 1, some "p1"⟩ (some "x") "r" =
        .error (.DoubleLockedQuantity ⟨iBTC, 1, some "p1"⟩) ∧
      applyOp (w8, []) (.lock ⟨iBTC, 1, some "p1"⟩ (some "x") "r") = (w8, []) :=
  claim_C9 w8 [] ⟨iBTC, 1, some "p1"⟩ (some "x") "r" rfl

/-- C5: `withdraw` of a lock-tagged quantity whose path id has no entry in the
locked map raises no error and (given the invariant that the balance is kept
quantized) returns the wallet with balance and locked map entirely unchanged;
only the other two branches mutate state. -/
theorem claim_C5 (w : Wallet) (led : Ledger) (q : Quantity) (r : String)
    (pid : String) (h1 : q.path_id = some pid)
    (h2 : lookupL w.locked q.path_id = none)
    (h3 : w.balance.quantize = w.balance) :
    w.withdraw led q r = .ok (q, w, led ++ [withdrawRec w q r]) := by
  unfold Wallet.withdraw
  rw [h1] at h2 ⊢
  rw [h2, h3]

/-- Witness for C5: withdrawing 5 BTC tagged with the unknown path `zz`. -/
theorem claim_C5_witness :
    w8.withdraw [] ⟨iBTC, 5, some "zz"⟩ "r" =
      .ok (⟨iBTC, 5, some "zz"⟩, w8, [] ++ [withdrawRec w8 ⟨iBTC, 5, some "zz"⟩ "r"]) :=
  claim_C5 w8 [] ⟨iBTC, 5, some "zz"⟩ "r" "zz" rfl rfl
    (by norm_num [w8, iBTC, Quantity.quantize, qz, rndHalfEven])

/-- C10: the silent no-op branch of `withdraw` still commits one ledger record
from the wallet locked bucket label to the exchange account label carrying
the full requested quantity, re-quantizes the balance, and returns the input
quantity unchanged. -/
theorem claim_C10 (w : Wallet) (led : Ledger) (q : Quantity) (r : String)
    (pid : String) (h1 : q.path_id = some pid)
    (h2 : lookupL w.locked q.path_id = none) :
    w.withdraw led q r =
      .ok (q, { w with balance := w.balance.quantize },
           led ++ [⟨q, w.lockedLabel, w.exchange.name, "WITHDRAWAL (" ++ r ++ ")"⟩]) := by
  unfold Wallet.withdraw withdrawRec
  rw [h1] at h2 ⊢
  rw [h2]

/-- Witness for C10: the no-op withdrawal of 7 USD tagged with the unknown
path `nope` produces a full-amount audit record. -/
theorem claim_C10_witness :
    wUSD.withdraw [] ⟨iUSD, 7, some "nope"⟩ "w" =
      .ok (⟨iUSD, 7, some "nope"⟩, { wUSD with balance := wUSD.balance.quantize },
           [] ++ [⟨⟨iUSD, 7, some "nope"⟩, wUSD.lockedLabel, wUSD.exchange.name,
                   "WITHDRAWAL (w)"⟩]) :=
  claim_C10 wUSD [] ⟨iUSD, 7, some "nope"⟩ "w" "nope" rfl rfl

/-- C7: `deposit` never fails and has no upper bound; a lock-tagged quantity
is accumulated into `locked[path_id]` (created if absent), a free quantity is
added to the balance; the balance is always re-quantized; and one ledger
record is committed from the exchange account label to the wallet locked
bucket label. -/
theorem claim_C7 (w : Wallet) (led : Ledger) (q : Quantity) (r : String) :
    (∃ res, w.deposit led q r = .ok res) ∧
    (∀ pid, q.path_id = some pid → lookupL w.locked q.path_id = none →
      w.deposit led q r =
        .ok (q,
             { w with
                 locked := setL w.locked q.path_id q,
                 balance := w.balance.quantize },
             led ++ [⟨q, w.exchange.name, w.lockedLabel, "DEPOSIT (" ++ r ++ ")"⟩])) ∧
    (∀ pid e, q.path_id = some pid → lookupL w.locked q.path_id = some e →
      w.deposit led q r =
        .ok (q,
             { w with
                 locked := setL w.locked q.path_id { e with size := e.size + q.size },
                 balance := w.balance.quantize },
             led ++ [⟨q, w.exchange.name, w.lockedLabel, "DEPOSIT (" ++ r ++ ")"⟩])) ∧
    (q.path_id = none →
      w.deposit led q r =
        .ok (q,
             { w with
                 balance := Quantity.quantize { w.balance with size := w.balance.size + q.size } },
             led ++ [⟨q, w.exchange.name, w.lockedLabel, "DEPOSIT (" ++ r ++ ")"⟩])) := by
  refine ⟨⟨_, rfl⟩, ?_, ?_, ?_⟩
  · intro pid hp hl
    rw [hp] at hl
    unfold Wallet.deposit
    rw [hp, hl]
  · intro pid e hp hl
    rw [hp] at hl
    unfold Wallet.deposit
    rw [hp, hl]
  · intro hp
    unfold Wallet.deposit
    rw [hp]

/-- Witness for C7 exercising all three deposit branches (fresh locked path,
existing locked path, free quantity) on concrete wallets. -/
theorem claim_C7_witness :
    (w8.deposit [] ⟨iBTC, 3, some "zz"⟩ "d" =
      .ok (⟨iBTC, 3, some "zz"⟩,
           { w8 with
               locked := [(some "p1", ⟨iBTC, 1/2, some "p1"⟩), (some "zz", ⟨iBTC, 3, some "zz"⟩)],
               balance := ⟨iBTC, 2, none⟩ },
           [⟨⟨iBTC, 3, some "zz"⟩, "E", "E:BTC/locked", "DEPOSIT (d)"⟩])) ∧
    (w8.deposit [] ⟨iBTC, 3, some "p1"⟩ "d" =
      .ok (⟨iBTC, 3, some "p1"⟩,
           { w8 with
               locked := [(some "p1", ⟨iBTC, 7/2, some "p1"⟩)],
               balance := ⟨iBTC, 2, none⟩ },
           [⟨⟨iBTC, 3, some "p1"⟩, "E", "E:BTC/locked", "DEPOSIT (d)"⟩])) ∧
    (w8.deposit [] ⟨iBTC, 3, none⟩ "d" =
      .ok (⟨iBTC, 3, none⟩,
           { w8 with balance := ⟨iBTC, 5, none⟩ },
           [⟨⟨iBTC, 3, none⟩, "E", "E:BTC/locked", "DEPOSIT (d)"⟩])) := by
  refine ⟨?_, ?_, ?_⟩
  · rw [(claim_C7 w8 [] ⟨iBTC, 3, some "zz"⟩ "d").2.1 "zz" rfl rfl]
    norm_num [w8, iBTC, exE, setL, Quantity.quantize, qz, rndHalfEven, Wallet.lockedLabel]
    decide
  · rw [(claim_C7 w8 [] ⟨iBTC, 3, some "p1"⟩ "d").2.2.1 "p1" ⟨iBTC, 1/2, some "p1"⟩ rfl rfl]
    norm_num [w8, iBTC, exE, setL, Quantity.quantize, qz, rndHalfEven, Wallet.lockedLabel]
    decide
  · rw [(claim_C7 w8 [] ⟨iBTC, 3, none⟩ "d").2.2.2 rfl]
    norm_num [w8, iBTC, exE, Quantity.quantize, qz, rndHalfEven, Wallet.lockedLabel]
    decide

/-- C6: `unlock` raises `DoubleUnlockedQuantity` on an untagged quantity,
`QuantityNotLocked` when the path id has no locked entry, and
`InsufficientFunds` when the quantity strictly exceeds the locked entry (no
clamping in any error case); otherwise it subtracts from the locked entry,
adds the quantity back to the balance, re-quantizes both and commits one
ledger record from the locked label to the free label. -/
theorem claim_C6 (w : Wallet) (led : Ledger) (q : Quantity) (r : String) :
    (q.path_id = none → w.unlock led q r = .error (.DoubleUnlockedQuantity q)) ∧
    (∀ pid, q.path_id = some pid → lookupL w.locked q.path_id = none →
      w.unlock led q r = .error (.QuantityNotLocked q)) ∧
    (∀ pid e, q.path_id = some pid → lookupL w.locked q.path_id = some e →
      e.size < q.size → w.unlock led q r = .error (.InsufficientFunds e.size q.size)) ∧
    (∀ pid e, q.path_id = some pid → lookupL w.locked q.path_id = some e →
      q.size ≤ e.size →
      w.unlock led q r =
        .ok (q,
             { w with
                 balance := Quantity.quantize { w.balance with size := w.balance.size + q.size },
                 locked := setL w.locked q.path_id
                   (Quantity.quantize { e with size := e.size - q.size }) },
             led ++ [⟨q, w.lockedLabel, w.freeLabel,
                      "UNLOCK " ++ w.instrument.symbol ++ " (" ++ r ++ ")"⟩])) := by
  refine ⟨?_, ?_, ?_, ?_⟩
  · intro hp
    simp [Wallet.unlock, hp]
  · intro pid hp hl
    rw [hp] at hl
    simp [Wallet.unlock, hp, hl]
  · intro pid e hp hl hlt
    rw [hp] at hl
    simp [Wallet.unlock, hp, hl, hlt]
  · intro pid e hp hl hle
    rw [hp] at hl
    simp [Wallet.unlock, hp, hl, not_lt.mpr hle]

/-- Witness for C6 exercising all four unlock outcomes on `w8`. -/
theorem claim_C6_witness :
    (w8.unlock [] ⟨iBTC, 1, none⟩ "r" = .error (.DoubleUnlockedQuantity ⟨iBTC, 1, none⟩)) ∧
    (w8.unlock [] ⟨iBTC, 1, some "zz"⟩ "r" =
      .error (.QuantityNotLocked ⟨iBTC, 1, some "zz"⟩)) ∧
    (w8.unlock [] ⟨iBTC, 1, some "p1"⟩ "r" = .error (.InsufficientFunds (1/2) 1)) ∧
    (w8.unlock [] ⟨iBTC, 1/2, some "p1"⟩ "r" =
      .ok (⟨iBTC, 1/2, some "p1"⟩,
           { w8 with
               balance := ⟨iBTC, 5/2, none⟩,
               locked := [(some "p1", ⟨iBTC, 0, some "p1"⟩)] },
           [⟨⟨iBTC, 1/2, some "p1"⟩, "E:BTC/locked", "E:BTC/free", "UNLOCK BTC (r)"⟩])) := by
  refine ⟨?_, ?_, ?_, ?_⟩
  · exact (claim_C6 w8 [] ⟨iBTC, 1, none⟩ "r").1 rfl
  · exact (claim_C6 w8 [] ⟨iBTC, 1, some "zz"⟩ "r").2.1 "zz" rfl rfl
  · exact (claim_C6 w8 [] ⟨iBTC, 1, some "p1"⟩ "r").2.2.1 "p1" ⟨iBTC, 1/2, some "p1"⟩
      rfl rfl (by norm_num)
  · rw [(claim_C6 w8 [] ⟨iBTC, 1/2, some "p1"⟩ "r").2.2.2 "p1" ⟨iBTC, 1/2, some "p1"⟩
      rfl rfl (by norm_num)]
    norm_num [w8, iBTC, exE, setL, Quantity.quantize, qz, rndHalfEven,
      Wallet.lockedLabel, Wallet.freeLabel]
    decide

/-- Quantizing zero yields zero. -/
theorem qz_zero (p : Nat) : qz p 0 = 0 := by
  unfold qz
  norm_num [rndHalfEven]

/-- C2 (amended): for a free quantity `q` exceeding the balance, `lock` and
`withdraw` clamp down to the full balance (leaving balance exactly 0) when the
excess is at most the dust tolerance `10^-(precision-2)`, and raise
`InsufficientFunds` reporting available vs requested when the excess is
strictly greater.  (The original claim put the failure at `excess ≥`
tolerance; the code uses a strict comparison, see `claim_C2_cex`.) -/
theorem claim_C2 (w : Wallet) (led : Ledger) (q : Quantity) (pid : Option String)
    (r1 r2 : String) (hfree : q.path_id = none) (hover : w.balance.size < q.size) :
    (q.size - w.balance.size ≤ w.dust →
      w.lock led q pid r1 =
        .ok (w.balance.lock_for pid,
             { w with
                 balance := Quantity.quantize { w.balance with size := w.balance.size - w.balance.size },
                 locked := setL w.locked pid
                   (Quantity.quantize
                     (match lookupL w.locked pid with
                      | none => w.balance.lock_for pid
                      | some e => { e with size := e.size + w.balance.size })) },
             led ++ [⟨w.balance.lock_for pid, w.freeLabel, w.lockedLabel,
                      "LOCK (" ++ r1 ++ ")"⟩]) ∧
      (Quantity.quantize { w.balance with size := w.balance.size - w.balance.size }).size = 0 ∧
      w.withdraw led q r2 =
        .ok (w.balance,
             { w with
                 balance := Quantity.quantize { w.balance with size := w.balance.size - w.balance.size } },
             led ++ [withdrawRec w w.balance r2])) ∧
    (w.dust < q.size - w.balance.size →
      w.lock led q pid r1 = .error (.InsufficientFunds w.balance.size q.size) ∧
      w.withdraw led q r2 = .error (.InsufficientFunds w.balance.size q.size)) := by
  constructor
  · intro hle
    refine ⟨?_, ?_, ?_⟩
    · simp [Wallet.lock, hfree, hover, not_lt.mpr hle, Quantity.lock_for]
    · simp [Quantity.quantize, sub_self, qz_zero]
    · simp [Wallet.withdraw, hfree, hover, not_lt.mpr hle]
  · intro hgt
    constructor
    · simp [Wallet.lock, hfree, hover, hgt]
    · simp [Wallet.withdraw, hfree, hover, hgt]

/-- Counterexample to C2 as stated: on an 8-decimal instrument the dust
tolerance is `10^-6`; requesting `balance + 10^-6` puts the excess exactly at
the tolerance, where the claim says `InsufficientFunds` must be raised — but
`lock` and `withdraw` use a strict comparison and clamp-succeed instead. -/
theorem claim_C2_cex :
    (⟨iBTC, 1000001/1000000, none⟩ : Quantity).size - wOne.balance.size = wOne.dust ∧
    wOne.lock [] ⟨iBTC, 1000001/1000000, none⟩ (some "p") "r" =
      .ok (⟨iBTC, 1, some "p"⟩,
           { wOne with balance := ⟨iBTC, 0, none⟩, locked := [(some "p", ⟨iBTC, 1, some "p"⟩)] },
           [⟨⟨iBTC, 1, some "p"⟩, "E:BTC/free", "E:BTC/locked", "LOCK (r)"⟩]) ∧
    wOne.withdraw [] ⟨iBTC, 1000001/1000000, none⟩ "r" =
      .ok (⟨iBTC, 1, none⟩, { wOne with balance := ⟨iBTC, 0, none⟩ },
           [⟨⟨iBTC, 1, none⟩, "E:BTC/locked", "E", "WITHDRAWAL (r)"⟩]) := by
  refine ⟨?_, ?_, ?_⟩
  · norm_num [wOne, iBTC, Wallet.dust]
  · norm_num [Wallet.lock, wOne, iBTC, exE, Wallet.dust, Quantity.quantize, Quantity.lock_for,
      qz, rndHalfEven, setL, lookupL, Wallet.freeLabel, Wallet.lockedLabel]
    decide
  · norm_num [Wallet.withdraw, wOne, iBTC, exE, Wallet.dust, Quantity.quantize,
      qz, rndHalfEven, lookupL, withdrawRec, Wallet.lockedLabel]
    decide

/-- Witness for C2 on a concrete 8-decimal wallet holding 1: an excess of
`10^-7` (below tolerance) clamp-succeeds in both `lock` and `withdraw`, and an
excess of 2 (above tolerance) raises `InsufficientFunds` in both. -/
theorem claim_C2_witness :
    (wOne.lock [] ⟨iBTC, 10000001/10000000, none⟩ (some "p") "r" =
      .ok (⟨iBTC, 1, some "p"⟩,
           { wOne with balance := ⟨iBTC, 0, none⟩, locked := [(some "p", ⟨iBTC, 1, some "p"⟩)] },
           [⟨⟨iBTC, 1, some "p"⟩, "E:BTC/free", "E:BTC/locked", "LOCK (r)"⟩])) ∧
    (wOne.withdraw [] ⟨iBTC, 10000001/10000000, none⟩ "r" =
      .ok (⟨iBTC, 1, none⟩, { wOne with balance := ⟨iBTC, 0, none⟩ },
           [⟨⟨iBTC, 1, none⟩, "E:BTC/locked", "E", "WITHDRAWAL (r)"⟩])) ∧
    (wOne.lock [] ⟨iBTC, 3, none⟩ (some "p") "r" = .error (.InsufficientFunds 1 3)) ∧
    (wOne.withdraw [] ⟨iBTC, 3, none⟩ "r" = .error (.InsufficientFunds 1 3)) := by
  have hA := claim_C2 wOne [] ⟨iBTC, 10000001/10000000, none⟩ (some "p") "r" "r" rfl
    (by norm_num [wOne, iBTC])
  have hB := claim_C2 wOne [] ⟨iBTC, 3, none⟩ (some "p") "r" "r" rfl
    (by norm_num [wOne, iBTC])
  have hA1 := hA.1 (by norm_num [wOne, iBTC, Wallet.dust])
  have hB1 := hB.2 (by norm_num [wOne, iBTC, Wallet.dust])
  refine ⟨?_, ?_, ?_, ?_⟩
  · rw [hA1.1]
    norm_num [wOne, iBTC, exE, Quantity.quantize, Quantity.lock_for, qz, rndHalfEven,
      setL, lookupL, Wallet.freeLabel, Wallet.lockedLabel]
    decide
  · rw [hA1.2.2]
    norm_num [wOne, iBTC, exE, Quantity.quantize, qz, rndHalfEven, withdrawRec,
      Wallet.lockedLabel]
    decide
  · rw [hB1.1]
    norm_num [wOne, iBTC]
  · rw [hB1.2]
    norm_num [wOne, iBTC]

/-- C4 (amended): `unlock(lock(q, pid, r1), r2)` restores balance and the
locked mapping exactly, provided `q` is free and quantized, `q ≤ balance`,
the balance respects its invariants (free, quantized), and — the correction —
`pid` already has a (quantized, non-negative) entry in the locked mapping.
When `pid` has no prior entry the balance is still restored but a zero-size
entry remains under `pid`, so the mapping is not restored exactly
(see `claim_C4_cex`). -/
theorem claim_C4 (w : Wallet) (led : Ledger) (q e : Quantity) (pid r1 r2 : String)
    (hfree : q.path_id = none) (hle : q.size ≤ w.balance.size)
    (hbq : w.balance.quantize = w.balance)
    (hl : lookupL w.locked (some pid) = some e)
    (he : e.quantize = e) (hee : 0 ≤ e.size)
    (hq1 : qz w.balance.instrument.precision q.size = q.size)
    (hq2 : qz e.instrument.precision q.size = q.size) :
    ∃ w1 led1 led2,
      w.lock led q (some pid) r1 = .ok (q.lock_for (some pid), w1, led1) ∧
      w1.unlock led1 (q.lock_for (some pid)) r2 = .ok (q.lock_for (some pid), w, led2) := by
  have hb_size : qz w.balance.instrument.precision w.balance.size = w.balance.size :=
    congrArg Quantity.size hbq
  have he_size : qz e.instrument.precision e.size = e.size :=
    congrArg Quantity.size he
  refine ⟨{ w with
              balance := { w.balance with size := w.balance.size - q.size },
              locked := setL w.locked (some pid) { e with size := e.size + q.size } },
          led ++ [⟨q.lock_for (some pid), w.freeLabel, w.lockedLabel, "LOCK (" ++ r1 ++ ")"⟩],
          (led ++ [⟨q.lock_for (some pid), w.freeLabel, w.lockedLabel, "LOCK (" ++ r1 ++ ")"⟩]) ++
            [⟨q.lock_for (some pid), w.lockedLabel, w.freeLabel,
              "UNLOCK " ++ w.instrument.symbol ++ " (" ++ r2 ++ ")"⟩],
          ?_, ?_⟩
  · unfold Wallet.lock
    simp [hfree, not_lt.mpr hle, hl, Quantity.lock_for, Quantity.quantize,
      qz_sub_of_fix hb_size hq1, qz_add_of_fix he_size hq2]
  · unfold Wallet.unlock
    have hlk := lookupL_setL_self w.locked (some pid) { e with size := e.size + q.size }
    simp only [Quantity.lock_for, Option.isSome_some, hlk]
    rw [setL_setL]
    simp [not_lt.mpr hee, Quantity.quantize, add_sub_cancel_right, he_size, hb_size,
      setL_lookup_id hl, Wallet.lockedLabel, Wallet.freeLabel, sub_add_cancel]

/-- Counterexample to C4 as stated: locking then unlocking a quantized free
quantity under a *fresh* path id does not restore the locked mapping exactly —
a zero-size entry for that path id remains (the code never deletes entries),
whereas the original mapping was empty. -/
theorem claim_C4_cex :
    wOne.locked = [] ∧
    Except.map (fun x => x.2.1.locked)
      (Except.bind (wOne.lock [] ⟨iBTC, 1, none⟩ (some "a") "r1")
        (fun x => x.2.1.unlock x.2.2 x.1 "r2")) =
      .ok [(some "a", ⟨iBTC, 0, some "a"⟩)] := by
  refine ⟨rfl, ?_⟩
  norm_num [Wallet.lock, Wallet.unlock, wOne, iBTC, exE, Quantity.quantize,
    Quantity.lock_for, qz, rndHalfEven, setL, lookupL, Except.bind, Except.map,
    Wallet.freeLabel, Wallet.lockedLabel]

/-- Witness for C4: on `w8` (0.5 BTC already locked under `p1`), locking and
unlocking a further 1 BTC under `p1` restores the wallet exactly. -/
theorem claim_C4_witness :
    ∃ w1 led1 led2,
      w8.lock [] ⟨iBTC, 1, none⟩ (some "p1") "r1" =
        .ok (Quantity.lock_for ⟨iBTC, 1, none⟩ (some "p1"), w1, led1) ∧
      w1.unlock led1 (Quantity.lock_for ⟨iBTC, 1, none⟩ (some "p1")) "r2" =
        .ok (Quantity.lock_for ⟨iBTC, 1, none⟩ (some "p1"), w8, led2) :=
  claim_C4 w8 [] ⟨iBTC, 1, none⟩ ⟨iBTC, 1/2, some "p1"⟩ "p1" "r1" "r2" rfl
    (by norm_num [w8, iBTC])
    (by norm_num [w8, iBTC, Quantity.quantize, qz, rndHalfEven])
    rfl
    (by norm_num [iBTC, Quantity.quantize, qz, rndHalfEven])
    (by norm_num)
    (by norm_num [w8, iBTC, qz, rndHalfEven])
    (by norm_num [iBTC, qz, rndHalfEven])

/-- C8: after any finite sequence of lock/unlock/deposit/withdraw calls on a
freshly constructed wallet, `reset()` yields balance equal to the
construction-time initial size (quantized) and an empty locked mapping, and
the ledger is left exactly as the sequence produced it (reset commits no
record). -/
theorem claim_C8 (ex : Exchange) (q0 : Quantity) (led : Ledger) (ops : List Op) :
    (resetPair (applyOps (mkWallet ex q0, led) ops)).1.balance =
        Quantity.quantize ⟨q0.instrument, q0.size, none⟩ ∧
    (resetPair (applyOps (mkWallet ex q0, led) ops)).1.locked = [] ∧
    (resetPair (applyOps (mkWallet ex q0, led) ops)).2 =
        (applyOps (mkWallet ex q0, led) ops).2 := by
  obtain ⟨hex, hinstr, hinit⟩ := applyOps_preserves (mkWallet ex q0, led) ops
  refine ⟨?_, rfl, rfl⟩
  simp [resetPair, Wallet.reset, mkWallet] at hinstr hinit ⊢
  rw [hinstr, hinit]

/-- C1: whenever `transfer` completes (returns instead of raising), the value
spent by the source equals, within the `1e-5` tolerance, the value gained by
the target converted back through the exchange pair plus the commission (BUY),
respectively the target gain plus commission converted through the pair
(SELL); a violation of this equation is the fatal assertion branch, which
never returns. -/
theorem claim_C1 (source target : Wallet) (led : Ledger) (q : Quantity)
    (pair : ExchangePair) (side : TradeSide) (t : Transfer)
    (sf tf : Wallet) (lf : Ledger)
    (h : Wallet.transfer source target led q pair side = .ok (t, sf, tf, lf)) :
    (side = .BUY →
      |(source.total_balance - sf.total_balance) -
        ((Quantity.convert ⟨target.instrument, tf.total_balance - target.total_balance, none⟩
            pair).size + t.commission.size)| < 1/100000) ∧
    (side = .SELL →
      |(source.total_balance - sf.total_balance) -
        (Quantity.convert ⟨target.instrument,
            (tf.total_balance - target.total_balance) + t.commission.size, none⟩
          pair).size| < 1/100000) := by
  cases side with
  | BUY =>
      refine ⟨fun _ => ?_, fun hs => (nomatch hs)⟩
      rcases h1 : source.withdraw led q.quantize "FILL ORDER" with e | ⟨q1, s1, l1⟩
      · simp only [Wallet.transfer, h1] at h
        exact Except.noConfusion h
      · rcases h2 : target.deposit l1 (q1.convert pair) "TRADED" with e | ⟨cv, t1, l2⟩
        · simp only [Wallet.transfer, h1, h2] at h
          exact Except.noConfusion h
        · rcases h3 : s1.lock l2 (q1.mulRate source.exchange.commission).free q1.path_id
              "LOCK BUY COMMISSION" with e | ⟨c1, s2, l3⟩
          · simp only [Wallet.transfer, h1, h2, h3] at h
            exact Except.noConfusion h
          · rcases h4 : s2.withdraw l3 c1 "PAY BUY COMMISSION" with e | ⟨c2, s3, l4⟩
            · simp only [Wallet.transfer, h1, h2, h3, h4] at h
              exact Except.noConfusion h
            · simp only [Wallet.transfer, h1, h2, h3, h4] at h
              split at h
              · simp only [Except.ok.injEq, Prod.mk.injEq] at h
                obtain ⟨ht, hsf, htf, hlf⟩ := h
                subst ht hsf htf
                exact checkDiff_iff.mp (by assumption)
              · simp at h
  | SELL =>
      refine ⟨fun hs => (nomatch hs), fun _ => ?_⟩
      rcases h1 : source.withdraw led q.quantize "FILL ORDER" with e | ⟨q1, s1, l1⟩
      · simp only [Wallet.transfer, h1] at h
        exact Except.noConfusion h
      · rcases h2 : target.deposit l1 (q1.convert pair) "TRADED" with e | ⟨cv, t1, l2⟩
        · simp only [Wallet.transfer, h1, h2] at h
          exact Except.noConfusion h
        · rcases h3 : t1.lock l2 (cv.mulRate source.exchange.commission).free q1.path_id
              "LOCK SELL COMMISSION" with e | ⟨c1, t2, l3⟩
          · simp only [Wallet.transfer, h1, h2, h3] at h
            exact Except.noConfusion h
          · rcases h4 : t2.withdraw l3 c1 "PAY SELL COMMISSION" with e | ⟨c2, t3, l4⟩
            · simp only [Wallet.transfer, h1, h2, h3, h4] at h
              exact Except.noConfusion h
            · simp only [Wallet.transfer, h1, h2, h3, h4] at h
              split at h
              · simp only [Except.ok.injEq, Prod.mk.injEq] at h
                obtain ⟨ht, hsf, htf, hlf⟩ := h
                subst ht hsf htf
                exact checkDiff_iff.mp (by assumption)
              · simp at h

/-! ## Concrete transfer evaluations (shared by the transfer witnesses) -/

/-- The Transfer record produced by the concrete BUY example. -/
def tC1 : Transfer := ⟨⟨iUSD, 100, some "o1"⟩, ⟨iUSD, 1/10, some "o1"⟩, 20000⟩

/-- Final source wallet of the concrete BUY example. -/
def sfC1 : Wallet :=
  ⟨exE, iUSD, 1000, ⟨iUSD, 8999/10, none⟩, [(some "o1", ⟨iUSD, 1/10, some "o1"⟩)]⟩

/-- Final target wallet of the concrete BUY example. -/
def tfC1 : Wallet :=
  ⟨exE, iBTC, 0, ⟨iBTC, 0, none⟩, [(some "o1", ⟨iBTC, 1/200, some "o1"⟩)]⟩

/-- Final ledger of the concrete BUY example. -/
def lfC1 : Ledger :=
  [⟨⟨iUSD, 100, some "o1"⟩, "E:USD/locked", "E", "WITHDRAWAL (FILL ORDER)"⟩,
   ⟨⟨iBTC, 1/200, some "o1"⟩, "E", "E:BTC/locked", "DEPOSIT (TRADED)"⟩,
   ⟨⟨iUSD, 1/10, some "o1"⟩, "E:USD/free", "E:USD/locked", "LOCK (LOCK BUY COMMISSION)"⟩,
   ⟨⟨iUSD, 1/10, some "o1"⟩, "E:USD/locked", "E", "WITHDRAWAL (PAY BUY COMMISSION)"⟩]

theorem buyW1 : Wallet.withdraw ⟨exE, iUSD, 1000, ⟨iUSD, 900, none⟩,
    [(some "o1", ⟨iUSD, 1001/10, some "o1"⟩)]⟩ [] ⟨iUSD, 100, some "o1"⟩ "FILL ORDER" =
    .ok (⟨iUSD, 100, some "o1"⟩,
         ⟨exE, iUSD, 1000, ⟨iUSD, 900, none⟩, [(some "o1", ⟨iUSD, 1/10, some "o1"⟩)]⟩,
         [⟨⟨iUSD, 100, some "o1"⟩, "E:USD/locked", "E", "WITHDRAWAL (FILL ORDER)"⟩]) := by
  norm_num [Wallet.withdraw, lookupL, setL, Quantity.quantize, qz, rndHalfEven,
    withdrawRec, Wallet.lockedLabel, iUSD, exE]
  all_goals decide

theorem buyD : Wallet.deposit ⟨exE, iBTC, 0, ⟨iBTC, 0, none⟩, []⟩
    [⟨⟨iUSD, 100, some "o1"⟩, "E:USD/locked", "E", "WITHDRAWAL (FILL ORDER)"⟩]
    ⟨iBTC, 1/200, some "o1"⟩ "TRADED" =
    .ok (⟨iBTC, 1/200, some "o1"⟩,
         ⟨exE, iBTC, 0, ⟨iBTC, 0, none⟩, [(some "o1", ⟨iBTC, 1/200, some "o1"⟩)]⟩,
         [⟨⟨iUSD, 100, some "o1"⟩, "E:USD/locked", "E", "WITHDRAWAL (FILL ORDER)"⟩,
          ⟨⟨iBTC, 1/200, some "o1"⟩, "E", "E:BTC/locked", "DEPOSIT (TRADED)"⟩]) := by
  norm_num [Wallet.deposit, lookupL, setL, Quantity.quantize, qz, rndHalfEven, iBTC, exE,
    Wallet.lockedLabel]
  all_goals decide

theorem buyL : Wallet.lock ⟨exE, iUSD, 1000, ⟨iUSD, 900, none⟩,
    [(some "o1", ⟨iUSD, 1/10, some "o1"⟩)]⟩
    [⟨⟨iUSD, 100, some "o1"⟩, "E:USD/locked", "E", "WITHDRAWAL (FILL ORDER)"⟩,
     ⟨⟨iBTC, 1/200, some "o1"⟩, "E", "E:BTC/locked", "DEPOSIT (TRADED)"⟩]
    ⟨iUSD, 1/10, none⟩ (some "o1") "LOCK BUY COMMISSION" =
    .ok (⟨iUSD, 1/10, some "o1"⟩,
         ⟨exE, iUSD, 1000, ⟨iUSD, 8999/10, none⟩, [(some "o1", ⟨iUSD, 1/5, some "o1"⟩)]⟩,
         [⟨⟨iUSD, 100, some "o1"⟩, "E:USD/locked", "E", "WITHDRAWAL (FILL ORDER)"⟩,
          ⟨⟨iBTC, 1/200, some "o1"⟩, "E", "E:BTC/locked", "DEPOSIT (TRADED)"⟩,
          ⟨⟨iUSD, 1/10, some "o1"⟩, "E:USD/free", "E:USD/locked",
           "LOCK (LOCK BUY COMMISSION)"⟩]) := by
  norm_num [Wallet.lock, lookupL, setL, Quantity.quantize, Quantity.lock_for, qz, rndHalfEven,
    iUSD, exE, Wallet.freeLabel, Wallet.lockedLabel]
  all_goals decide

theorem buyW2 : Wallet.withdraw ⟨exE, iUSD, 1000, ⟨iUSD, 8999/10, none⟩,
    [(some "o1", ⟨iUSD, 1/5, some "o1"⟩)]⟩
    [⟨⟨iUSD, 100, some "o1"⟩, "E:USD/locked", "E", "WITHDRAWAL (FILL ORDER)"⟩,
     ⟨⟨iBTC, 1/200, some "o1"⟩, "E", "E:BTC/locked", "DEPOSIT (TRADED)"⟩,
     ⟨⟨iUSD, 1/10, some "o1"⟩, "E:USD/free", "E:USD/locked", "LOCK (LOCK BUY COMMISSION)"⟩]
    ⟨iUSD, 1/10, some "o1"⟩ "PAY BUY COMMISSION" =
    .ok (⟨iUSD, 1/10, some "o1"⟩,
         ⟨exE, iUSD, 1000, ⟨iUSD, 8999/10, none⟩, [(some "o1", ⟨iUSD, 1/10, some "o1"⟩)]⟩,
         lfC1) := by
  norm_num [Wallet.withdraw, lookupL, setL, Quantity.quantize, qz, rndHalfEven,
    withdrawRec, Wallet.lockedLabel, iUSD, iBTC, exE, lfC1]
  all_goals decide

/-- Full evaluation of the concrete BUY transfer of the spec test vector
(1000.10 USD total in source with 100.10 locked for order `o1`, empty BTC
target, price 20000, fee 0.001, quantity 100 USD). -/
theorem transferBuyEval :
    Wallet.transfer wUSD wBTC [] ⟨iUSD, 100, some "o1"⟩ pairUB .BUY =
      .ok (tC1, sfC1, tfC1, lfC1) := by
  have hq : Quantity.quantize ⟨iUSD, (100:ℚ), some "o1"⟩ = ⟨iUSD, 100, some "o1"⟩ := by
    norm_num [Quantity.quantize, iUSD, qz, rndHalfEven]
  have hcv : Quantity.convert ⟨iUSD, (100:ℚ), some "o1"⟩ pairUB = ⟨iBTC, 1/200, some "o1"⟩ := by
    norm_num [Quantity.convert, pairUB]
  have hcm : Quantity.free (Quantity.mulRate ⟨iUSD, (100:ℚ), some "o1"⟩ exE.commission) =
      ⟨iUSD, 1/10, none⟩ := by
    norm_num [Quantity.free, Quantity.mulRate, exE]
  simp only [wUSD, wBTC, tC1, sfC1, tfC1, Wallet.transfer, hq, buyW1]
  simp only [hcv, buyD]
  simp only [hcm, buyL, buyW2]
  norm_num [checkDiff, Wallet.total_balance, Wallet.lockedTotal, Quantity.convert, pairUB,
    iUSD, iBTC]

/-- Witness for C1: the completed concrete BUY transfer satisfies the BUY
conservation equation — 100.10 USD left the source, 0.005 BTC converted back
at price 20000 gives 100 USD, plus the 0.10 USD commission. -/
theorem claim_C1_witness :
    |(wUSD.total_balance - sfC1.total_balance) -
      ((Quantity.convert ⟨wBTC.instrument, tfC1.total_balance - wBTC.total_balance, none⟩
          pairUB).size + tC1.commission.size)| < 1/100000 :=
  (claim_C1 wUSD wBTC [] ⟨iUSD, 100, some "o1"⟩ pairUB .BUY tC1 sfC1 tfC1 lfC1
    transferBuyEval).1 rfl

/-- Source wallet of the concrete SELL example: 1.005 BTC total with 0.005
locked for order `o2`. -/
def wBTC2 : Wallet :=
  ⟨exE, iBTC, 1, ⟨iBTC, 1, none⟩, [(some "o2", ⟨iBTC, 1/200, some "o2"⟩)]⟩

/-- Target wallet of the concrete SELL example: 5 USD free. -/
def wUSD2 : Wallet := ⟨exE, iUSD, 5, ⟨iUSD, 5, none⟩, []⟩

/-- The Transfer record produced by the concrete SELL example. -/
def tS : Transfer := ⟨⟨iBTC, 1/200, some "o2"⟩, ⟨iUSD, 1/10, some "o2"⟩, 20000⟩

/-- Final source wallet of the concrete SELL example. -/
def sfS : Wallet :=
  ⟨exE, iBTC, 1, ⟨iBTC, 1, none⟩, [(some "o2", ⟨iBTC, 0, some "o2"⟩)]⟩

/-- Final target wallet of the concrete SELL example. -/
def tfS : Wallet :=
  ⟨exE, iUSD, 5, ⟨iUSD, 49/10, none⟩, [(some "o2", ⟨iUSD, 100, some "o2"⟩)]⟩

/-- Final ledger of the concrete SELL example. -/
def lfS : Ledger :=
  [⟨⟨iBTC, 1/200, some "o2"⟩, "E:BTC/locked", "E", "WITHDRAWAL (FILL ORDER)"⟩,
   ⟨⟨iUSD, 100, some "o2"⟩, "E", "E:USD/locked", "DEPOSIT (TRADED)"⟩,
   ⟨⟨iUSD, 1/10, some "o2"⟩, "E:USD/free", "E:USD/locked", "LOCK (LOCK SELL COMMISSION)"⟩,
   ⟨⟨iUSD, 1/10, some "o2"⟩, "E:USD/locked", "E", "WITHDRAWAL (PAY SELL COMMISSION)"⟩]

theorem sellW1 : Wallet.withdraw ⟨exE, iBTC, 1, ⟨iBTC, 1, none⟩,
    [(some "o2", ⟨iBTC, 1/200, some "o2"⟩)]⟩ [] ⟨iBTC, 1/200, some "o2"⟩ "FILL ORDER" =
    .ok (⟨iBTC, 1/200, some "o2"⟩,
         ⟨exE, iBTC, 1, ⟨iBTC, 1, none⟩, [(some "o2", ⟨iBTC, 0, some "o2"⟩)]⟩,
         [⟨⟨iBTC, 1/200, some "o2"⟩, "E:BTC/locked", "E", "WITHDRAWAL (FILL ORDER)"⟩]) := by
  norm_num [Wallet.withdraw, lookupL, setL, Quantity.quantize, qz, rndHalfEven,
    withdrawRec, Wallet.lockedLabel, iBTC, exE]
  all_goals decide

theorem sellD : Wallet.deposit ⟨exE, iUSD, 5, ⟨iUSD, 5, none⟩, []⟩
    [⟨⟨iBTC, 1/200, some "o2"⟩, "E:BTC/locked", "E", "WITHDRAWAL (FILL ORDER)"⟩]
    ⟨iUSD, 100, some "o2"⟩ "TRADED" =
    .ok (⟨iUSD, 100, some "o2"⟩,
         ⟨exE, iUSD, 5, ⟨iUSD, 5, none⟩, [(some "o2", ⟨iUSD, 100, some "o2"⟩)]⟩,
         [⟨⟨iBTC, 1/200, some "o2"⟩, "E:BTC/locked", "E", "WITHDRAWAL (FILL ORDER)"⟩,
          ⟨⟨iUSD, 100, some "o2"⟩, "E", "E:USD/locked", "DEPOSIT (TRADED)"⟩]) := by
  norm_num [Wallet.deposit, lookupL, setL, Quantity.quantize, qz, rndHalfEven, iUSD, exE,
    Wallet.lockedLabel]
  all_goals decide

theorem sellL : Wallet.lock ⟨exE, iUSD, 5, ⟨iUSD, 5, none⟩,
    [(some "o2", ⟨iUSD, 100, some "o2"⟩)]⟩
    [⟨⟨iBTC, 1/200, some "o2"⟩, "E:BTC/locked", "E", "WITHDRAWAL (FILL ORDER)"⟩,
     ⟨⟨iUSD, 100, some "o2"⟩, "E", "E:USD/locked", "DEPOSIT (TRADED)"⟩]
    ⟨iUSD, 1/10, none⟩ (some "o2") "LOCK SELL COMMISSION" =
    .ok (⟨iUSD, 1/10, some "o2"⟩,
         ⟨exE, iUSD, 5, ⟨iUSD, 49/10, none⟩, [(some "o2", ⟨iUSD, 1001/10, some "o2"⟩)]⟩,
         [⟨⟨iBTC, 1/200, some "o2"⟩, "E:BTC/locked", "E", "WITHDRAWAL (FILL ORDER)"⟩,
          ⟨⟨iUSD, 100, some "o2"⟩, "E", "E:USD/locked", "DEPOSIT (TRADED)"⟩,
          ⟨⟨iUSD, 1/10, some "o2"⟩, "E:USD/free", "E:USD/locked",
           "LOCK (LOCK SELL COMMISSION)"⟩]) := by
  norm_num [Wallet.lock, lookupL, setL, Quantity.quantize, Quantity.lock_for, qz, rndHalfEven,
    iUSD, exE, Wallet.freeLabel, Wallet.lockedLabel]
  all_goals decide

theorem sellW2 : Wallet.withdraw ⟨exE, iUSD, 5, ⟨iUSD, 49/10, none⟩,
    [(some "o2", ⟨iUSD, 1001/10, some "o2"⟩)]⟩
    [⟨⟨iBTC, 1/200, some "o2"⟩, "E:BTC/locked", "E", "WITHDRAWAL (FILL ORDER)"⟩,
     ⟨⟨iUSD, 100, some "o2"⟩, "E", "E:USD/locked", "DEPOSIT (TRADED)"⟩,
     ⟨⟨iUSD, 1/10, some "o2"⟩, "E:USD/free", "E:USD/locked", "LOCK (LOCK SELL COMMISSION)"⟩]
    ⟨iUSD, 1/10, some "o2"⟩ "PAY SELL COMMISSION" =
    .ok (⟨iUSD, 1/10, some "o2"⟩,
         ⟨exE, iUSD, 5, ⟨iUSD, 49/10, none⟩, [(some "o2", ⟨iUSD, 100, some "o2"⟩)]⟩,
         lfS) := by
  norm_num [Wallet.withdraw, lookupL, setL, Quantity.quantize, qz, rndHalfEven,
    withdrawRec, Wallet.lockedLabel, iUSD, iBTC, exE, lfS]
  all_goals decide

/-- Full evaluation of the concrete SELL transfer: 0.005 BTC sold for 100 USD
at price 20000, with a 0.10 USD commission taken from the target wallet. -/
theorem transferSellEval :
    Wallet.transfer wBTC2 wUSD2 [] ⟨iBTC, 1/200, some "o2"⟩ pairUB .SELL =
      .ok (tS, sfS, tfS, lfS) := by
  have hq : Quantity.quantize ⟨iBTC, (1/200:ℚ), some "o2"⟩ = ⟨iBTC, 1/200, some "o2"⟩ := by
    norm_num [Quantity.quantize, iBTC, qz, rndHalfEven]
  have hcv : Quantity.convert ⟨iBTC, (1/200:ℚ), some "o2"⟩ pairUB =
      ⟨iUSD, 100, some "o2"⟩ := by
    norm_num [Quantity.convert, pairUB, iUSD, iBTC]
  have hcm : Quantity.free (Quantity.mulRate ⟨iUSD, (100:ℚ), some "o2"⟩ exE.commission) =
      ⟨iUSD, 1/10, none⟩ := by
    norm_num [Quantity.free, Quantity.mulRate, exE]
  simp only [wBTC2, wUSD2, tS, sfS, tfS, Wallet.transfer, hq, sellW1]
  simp only [hcv, sellD]
  simp only [hcm, sellL, sellW2]
  norm_num [checkDiff, Wallet.total_balance, Wallet.lockedTotal, Quantity.convert, pairUB,
    iUSD, iBTC]

/-- Source wallet of the clamped-commission BUY example: only 0.05 USD free
but 100 USD locked for order `o1`. -/
def wClamp : Wallet :=
  ⟨exE, iUSD, 1000, ⟨iUSD, 1/20, none⟩, [(some "o1", ⟨iUSD, 100, some "o1"⟩)]⟩

/-- Final source wallet of the clamped-commission BUY example. -/
def sClampF : Wallet :=
  ⟨exE, iUSD, 1000, ⟨iUSD, 0, none⟩, [(some "o1", ⟨iUSD, 0, some "o1"⟩)]⟩

/-- Final target wallet of the clamped-commission BUY example. -/
def tClampF : Wallet :=
  ⟨exE, iBTC, 0, ⟨iBTC, 0, none⟩, [(some "o1", ⟨iBTC, 1/200, some "o1"⟩)]⟩

/-- Final ledger of the clamped-commission BUY example. -/
def lClampF : Ledger :=
  [⟨⟨iUSD, 100, some "o1"⟩, "E:USD/locked", "E", "WITHDRAWAL (FILL ORDER)"⟩,
   ⟨⟨iBTC, 1/200, some "o1"⟩, "E", "E:BTC/locked", "DEPOSIT (TRADED)"⟩,
   ⟨⟨iUSD, 1/20, some "o1"⟩, "E:USD/free", "E:USD/locked", "LOCK (LOCK BUY COMMISSION)"⟩,
   ⟨⟨iUSD, 1/20, some "o1"⟩, "E:USD/locked", "E", "WITHDRAWAL (PAY BUY COMMISSION)"⟩]

theorem clampW1 : Wallet.withdraw ⟨exE, iUSD, 1000, ⟨iUSD, 1/20, none⟩,
    [(some "o1", ⟨iUSD, 100, some "o1"⟩)]⟩ [] ⟨iUSD, 100, some "o1"⟩ "FILL ORDER" =
    .ok (⟨iUSD, 100, some "o1"⟩,
         ⟨exE, iUSD, 1000, ⟨iUSD, 1/20, none⟩, [(some "o1", ⟨iUSD, 0, some "o1"⟩)]⟩,
         [⟨⟨iUSD, 100, some "o1"⟩, "E:USD/locked", "E", "WITHDRAWAL (FILL ORDER)"⟩]) := by
  norm_num [Wallet.withdraw, lookupL, setL, Quantity.quantize, qz, rndHalfEven,
    withdrawRec, Wallet.lockedLabel, iUSD, exE]
  all_goals decide

theorem clampD : Wallet.deposit ⟨exE, iBTC, 0, ⟨iBTC, 0, none⟩, []⟩
    [⟨⟨iUSD, 100, some "o1"⟩, "E:USD/locked", "E", "WITHDRAWAL (FILL ORDER)"⟩]
    ⟨iBTC, 1/200, some "o1"⟩ "TRADED" =
    .ok (⟨iBTC, 1/200, some "o1"⟩,
         ⟨exE, iBTC, 0, ⟨iBTC, 0, none⟩, [(some "o1", ⟨iBTC, 1/200, some "o1"⟩)]⟩,
         [⟨⟨iUSD, 100, some "o1"⟩, "E:USD/locked", "E", "WITHDRAWAL (FILL ORDER)"⟩,
          ⟨⟨iBTC, 1/200, some "o1"⟩, "E", "E:BTC/locked", "DEPOSIT (TRADED)"⟩]) := by
  norm_num [Wallet.deposit, lookupL, setL, Quantity.quantize, qz, rndHalfEven, iBTC, exE,
    Wallet.lockedLabel]
  all_goals decide

theorem clampL : Wallet.lock ⟨exE, iUSD, 1000, ⟨iUSD, 1/20, none⟩,
    [(some "o1", ⟨iUSD, 0, some "o1"⟩)]⟩
    [⟨⟨iUSD, 100, some "o1"⟩, "E:USD/locked", "E", "WITHDRAWAL (FILL ORDER)"⟩,
     ⟨⟨iBTC, 1/200, some "o1"⟩, "E", "E:BTC/locked", "DEPOSIT (TRADED)"⟩]
    ⟨iUSD, 1/10, none⟩ (some "o1") "LOCK BUY COMMISSION" =
    .ok (⟨iUSD, 1/20, some "o1"⟩,
         ⟨exE, iUSD, 1000, ⟨iUSD, 0, none⟩, [(some "o1", ⟨iUSD, 1/20, some "o1"⟩)]⟩,
         [⟨⟨iUSD, 100, some "o1"⟩, "E:USD/locked", "E", "WITHDRAWAL (FILL ORDER)"⟩,
          ⟨⟨iBTC, 1/200, some "o1"⟩, "E", "E:BTC/locked", "DEPOSIT (TRADED)"⟩,
          ⟨⟨iUSD, 1/20, some "o1"⟩, "E:USD/free", "E:USD/locked",
           "LOCK (LOCK BUY COMMISSION)"⟩]) := by
  norm_num [Wallet.lock, Wallet.dust, lookupL, setL, Quantity.quantize, Quantity.lock_for,
    qz, rndHalfEven, iUSD, exE, Wallet.freeLabel, Wallet.lockedLabel]
  all_goals decide

theorem clampW2 : Wallet.withdraw ⟨exE, iUSD, 1000, ⟨iUSD, 0, none⟩,
    [(some "o1", ⟨iUSD, 1/20, some "o1"⟩)]⟩
    [⟨⟨iUSD, 100, some "o1"⟩, "E:USD/locked", "E", "WITHDRAWAL (FILL ORDER)"⟩,
     ⟨⟨iBTC, 1/200, some "o1"⟩, "E", "E:BTC/locked", "DEPOSIT (TRADED)"⟩,
     ⟨⟨iUSD, 1/20, some "o1"⟩, "E:USD/free", "E:USD/locked", "LOCK (LOCK BUY COMMISSION)"⟩]
    ⟨iUSD, 1/20, some "o1"⟩ "PAY BUY COMMISSION" =
    .ok (⟨iUSD, 1/20, some "o1"⟩,
         ⟨exE, iUSD, 1000, ⟨iUSD, 0, none⟩, [(some "o1", ⟨iUSD, 0, some "o1"⟩)]⟩,
         lClampF) := by
  norm_num [Wallet.withdraw, lookupL, setL, Quantity.quantize, qz, rndHalfEven,
    withdrawRec, Wallet.lockedLabel, iUSD, iBTC, exE, lClampF]
  all_goals decide

/-- Full evaluation of the clamped-commission BUY transfer: the source has
only 0.05 USD free, so locking the 0.10 USD commission clamps it down to
0.05 (the dust tolerance of a 2-decimal instrument is 10^0 = 1), the
conservation check still passes exactly, and the transfer completes with
commission 0.05 instead of 100 × 0.001 = 0.10. -/
theorem transferClampEval :
    Wallet.transfer wClamp wBTC [] ⟨iUSD, 100, some "o1"⟩ pairUB .BUY =
      .ok (⟨⟨iUSD, 100, some "o1"⟩, ⟨iUSD, 1/20, some "o1"⟩, 20000⟩,
           sClampF, tClampF, lClampF) := by
  have hq : Quantity.quantize ⟨iUSD, (100:ℚ), some "o1"⟩ = ⟨iUSD, 100, some "o1"⟩ := by
    norm_num [Quantity.quantize, iUSD, qz, rndHalfEven]
  have hcv : Quantity.convert ⟨iUSD, (100:ℚ), some "o1"⟩ pairUB = ⟨iBTC, 1/200, some "o1"⟩ := by
    norm_num [Quantity.convert, pairUB]
  have hcm : Quantity.free (Quantity.mulRate ⟨iUSD, (100:ℚ), some "o1"⟩ exE.commission) =
      ⟨iUSD, 1/10, none⟩ := by
    norm_num [Quantity.free, Quantity.mulRate, exE]
  simp only [wClamp, wBTC, sClampF, tClampF, Wallet.transfer, hq, clampW1]
  simp only [hcv, clampD]
  simp only [hcm, clampL, clampW2]
  norm_num [checkDiff, Wallet.total_balance, Wallet.lockedTotal, Quantity.convert, pairUB,
    iUSD, iBTC]

/-- `lock` when the quantity is free and does not exceed the balance: no
clamping, no error. -/
theorem lock_noclamp (w : Wallet) (led : Ledger) (c0 : Quantity) (pid : Option String)
    (r : String) (hfree : c0.path_id = none) (hle : ¬ c0.size > w.balance.size) :
    w.lock led c0 pid r =
      .ok (c0.lock_for pid,
           { w with
               balance := Quantity.quantize { w.balance with size := w.balance.size - c0.size },
               locked := setL w.locked pid (Quantity.quantize
                 (match lookupL w.locked pid with
                  | none => c0.lock_for pid
                  | some e => { e with size := e.size + c0.size })) },
           led ++ [⟨c0.lock_for pid, w.freeLabel, w.lockedLabel, "LOCK (" ++ r ++ ")"⟩]) := by
  unfold Wallet.lock
  simp [hfree, hle, Quantity.lock_for]

/-- `withdraw` of a locked quantity against an existing entry it does not
exceed: no clamping, no error. -/
theorem withdraw_locked_noclamp (w : Wallet) (led : Ledger) (q e : Quantity) (pid : String)
    (r : String) (hp : q.path_id = some pid)
    (hl : lookupL w.locked (some pid) = some e)
    (hle : ¬ q.size > e.size) :
    w.withdraw led q r =
      .ok (q,
           { w with balance := w.balance.quantize,
                    locked := setL w.locked (some pid) { e with size := e.size - q.size } },
           led ++ [withdrawRec w q r]) := by
  unfold Wallet.withdraw
  rw [hp]
  simp [hl, hle]

/-- C3 (amended): in a completed transfer the commission is built from the
withdrawn quantity (BUY), respectively the converted/deposited quantity
(SELL), times the fee rate of `source.exchange`; it is stripped of its lock
tag and re-locked under the withdrawn quantity `path_id` (visible in the lock
call and in the returned commission tag), and it is withdrawn from the
source wallet on BUY (final target is the post-deposit wallet `t1`) and from
the target wallet on SELL (final source is the post-withdraw wallet `s1`).
The commission actually charged equals the base amount times the fee rate
exactly only when the commission leg does not hit the dust clamp (hypotheses
`hnc1`/`hnc2` below: the commission fits in the paying wallet free balance,
and the locked entry covers the commission withdrawal).  The original,
unconditional claim is false on reachable completed transfers: see
`claim_C3_cex`, where the clamp fires and the commission is reduced to the
remaining free balance. -/
theorem claim_C3 (source target : Wallet) (led : Ledger) (q : Quantity)
    (pair : ExchangePair) (t : Transfer) (sf tf : Wallet) (lf : Ledger)
    (q1 cv c1 c2 : Quantity) (s1 t1 w2 w3 : Wallet) (l1 l2 l3 l4 : Ledger) (pid : String) :
    (Wallet.transfer source target led q pair .BUY = .ok (t, sf, tf, lf) →
     source.withdraw led q.quantize "FILL ORDER" = .ok (q1, s1, l1) →
     target.deposit l1 (q1.convert pair) "TRADED" = .ok (cv, t1, l2) →
     s1.lock l2 (q1.mulRate source.exchange.commission).free q1.path_id
       "LOCK BUY COMMISSION" = .ok (c1, w2, l3) →
     w2.withdraw l3 c1 "PAY BUY COMMISSION" = .ok (c2, w3, l4) →
     q1.path_id = some pid →
     ¬ (q1.mulRate source.exchange.commission).free.size > s1.balance.size →
     (∀ e, lookupL w2.locked (some pid) = some e → ¬ c1.size > e.size) →
     t.commission = ⟨q1.instrument, q1.size * source.exchange.commission, some pid⟩ ∧
       sf = w3 ∧ tf = t1) ∧
    (Wallet.transfer source target led q pair .SELL = .ok (t, sf, tf, lf) →
     source.withdraw led q.quantize "FILL ORDER" = .ok (q1, s1, l1) →
     target.deposit l1 (q1.convert pair) "TRADED" = .ok (cv, t1, l2) →
     t1.lock l2 (cv.mulRate source.exchange.commission).free q1.path_id
       "LOCK SELL COMMISSION" = .ok (c1, w2, l3) →
     w2.withdraw l3 c1 "PAY SELL COMMISSION" = .ok (c2, w3, l4) →
     q1.path_id = some pid →
     ¬ (cv.mulRate source.exchange.commission).free.size > t1.balance.size →
     (∀ e, lookupL w2.locked (some pid) = some e → ¬ c1.size > e.size) →
     t.commission = ⟨cv.instrument, cv.size * source.exchange.commission, some pid⟩ ∧
       sf = s1 ∧ tf = w3) := by
  constructor
  · intro hT h1 h2 h3 h4 hpid hnc1 hnc2
    simp only [Wallet.transfer, h1, h2, h3, h4] at hT
    rw [hpid] at h3
    rw [lock_noclamp s1 l2 (q1.mulRate source.exchange.commission).free (some pid)
      "LOCK BUY COMMISSION" rfl hnc1] at h3
    simp only [Except.ok.injEq, Prod.mk.injEq] at h3
    obtain ⟨hc1, hw2, hl3⟩ := h3
    subst hc1 hw2 hl3
    rw [withdraw_locked_noclamp _ _ _ _ pid "PAY BUY COMMISSION" rfl
      (lookupL_setL_self _ _ _)
      (hnc2 _ (lookupL_setL_self _ _ _))] at h4
    simp only [Except.ok.injEq, Prod.mk.injEq] at h4
    obtain ⟨hc2, hw3, hl4⟩ := h4
    subst hc2 hw3 hl4
    split at hT
    · simp only [Except.ok.injEq, Prod.mk.injEq] at hT
      obtain ⟨ht, hsf, htf, hlf⟩ := hT
      subst ht hsf htf
      refine ⟨?_, rfl, rfl⟩
      simp [Quantity.mulRate, Quantity.free, Quantity.lock_for]
    · exact Except.noConfusion hT
  · intro hT h1 h2 h3 h4 hpid hnc1 hnc2
    simp only [Wallet.transfer, h1, h2, h3, h4] at hT
    rw [hpid] at h3
    rw [lock_noclamp t1 l2 (cv.mulRate source.exchange.commission).free (some pid)
      "LOCK SELL COMMISSION" rfl hnc1] at h3
    simp only [Except.ok.injEq, Prod.mk.injEq] at h3
    obtain ⟨hc1, hw2, hl3⟩ := h3
    subst hc1 hw2 hl3
    rw [withdraw_locked_noclamp _ _ _ _ pid "PAY SELL COMMISSION" rfl
      (lookupL_setL_self _ _ _)
      (hnc2 _ (lookupL_setL_self _ _ _))] at h4
    simp only [Except.ok.injEq, Prod.mk.injEq] at h4
    obtain ⟨hc2, hw3, hl4⟩ := h4
    subst hc2 hw3 hl4
    split at hT
    · simp only [Except.ok.injEq, Prod.mk.injEq] at hT
      obtain ⟨ht, hsf, htf, hlf⟩ := hT
      subst ht hsf htf
      refine ⟨?_, rfl, rfl⟩
      simp [Quantity.mulRate, Quantity.free, Quantity.lock_for]
    · exact Except.noConfusion hT

/-- Counterexample to C3 as stated: a reachable BUY transfer that completes
(the conservation assertion passes exactly) while the commission is NOT the
withdrawn quantity times the fee rate.  The source holds only 0.05 USD free
besides the 100 USD locked for the order, so `lock` (wallet.py lines 109-113)
clamps the 0.10 USD commission down to 0.05 within the 2-decimal dust
tolerance of 10^0 = 1, and the transfer returns commission 0.05 ≠
100 × 0.001. -/
theorem claim_C3_cex :
    Wallet.transfer wClamp wBTC [] ⟨iUSD, 100, some "o1"⟩ pairUB .BUY =
      .ok (⟨⟨iUSD, 100, some "o1"⟩, ⟨iUSD, 1/20, some "o1"⟩, 20000⟩,
           sClampF, tClampF, lClampF) ∧
    ¬ ((⟨iUSD, 1/20, some "o1"⟩ : Quantity).size =
        (⟨iUSD, 100, some "o1"⟩ : Quantity).size * wClamp.exchange.commission) :=
  ⟨transferClampEval, by norm_num [wClamp, exE]⟩

/-- Witness for C3: both concrete transfers, BUY and SELL, yield commission
0.10 USD = base amount (100 USD) times the 0.001 fee rate, tagged with the
order's path id; the BUY commission leaves the source wallet (target stays at
its post-deposit state) and the SELL commission leaves the target wallet
(source stays at its post-withdraw state). -/
theorem claim_C3_witness :
    (tC1.commission = ⟨iUSD, 1/10, some "o1"⟩ ∧
      sfC1 = ⟨exE, iUSD, 1000, ⟨iUSD, 8999/10, none⟩,
              [(some "o1", ⟨iUSD, 1/10, some "o1"⟩)]⟩ ∧
      tfC1 = ⟨exE, iBTC, 0, ⟨iBTC, 0, none⟩, [(some "o1", ⟨iBTC, 1/200, some "o1"⟩)]⟩) ∧
    (tS.commission = ⟨iUSD, 1/10, some "o2"⟩ ∧
      sfS = ⟨exE, iBTC, 1, ⟨iBTC, 1, none⟩, [(some "o2", ⟨iBTC, 0, some "o2"⟩)]⟩ ∧
      tfS = ⟨exE, iUSD, 5, ⟨iUSD, 49/10, none⟩, [(some "o2", ⟨iUSD, 100, some "o2"⟩)]⟩) := by
  constructor
  · have hq : Quantity.quantize ⟨iUSD, (100:ℚ), some "o1"⟩ = ⟨iUSD, 100, some "o1"⟩ := by
      norm_num [Quantity.quantize, iUSD, qz, rndHalfEven]
    have hcm : Quantity.free (Quantity.mulRate ⟨iUSD, (100:ℚ), some "o1"⟩ exE.commission) =
        ⟨iUSD, 1/10, none⟩ := by
      norm_num [Quantity.free, Quantity.mulRate, exE]
    have hcv : Quantity.convert ⟨iUSD, (100:ℚ), some "o1"⟩ pairUB =
        ⟨iBTC, 1/200, some "o1"⟩ := by
      norm_num [Quantity.convert, pairUB]
    have hh1 : wUSD.withdraw [] (Quantity.quantize ⟨iUSD, 100, some "o1"⟩) "FILL ORDER" =
        .ok (⟨iUSD, 100, some "o1"⟩,
             ⟨exE, iUSD, 1000, ⟨iUSD, 900, none⟩, [(some "o1", ⟨iUSD, 1/10, some "o1"⟩)]⟩,
             [⟨⟨iUSD, 100, some "o1"⟩, "E:USD/locked", "E", "WITHDRAWAL (FILL ORDER)"⟩]) := by
      rw [hq]
      exact buyW1
    have hh2 : Wallet.deposit ⟨exE, iBTC, 0, ⟨iBTC, 0, none⟩, []⟩
        [⟨⟨iUSD, 100, some "o1"⟩, "E:USD/locked", "E", "WITHDRAWAL (FILL ORDER)"⟩]
        (Quantity.convert ⟨iUSD, 100, some "o1"⟩ pairUB) "TRADED" =
        .ok (⟨iBTC, 1/200, some "o1"⟩,
             ⟨exE, iBTC, 0, ⟨iBTC, 0, none⟩, [(some "o1", ⟨iBTC, 1/200, some "o1"⟩)]⟩,
             [⟨⟨iUSD, 100, some "o1"⟩, "E:USD/locked", "E", "WITHDRAWAL (FILL ORDER)"⟩,
              ⟨⟨iBTC, 1/200, some "o1"⟩, "E", "E:BTC/locked", "DEPOSIT (TRADED)"⟩]) := by
      rw [hcv]
      exact buyD
    have hh3 : Wallet.lock
        ⟨exE, iUSD, 1000, ⟨iUSD, 900, none⟩, [(some "o1", ⟨iUSD, 1/10, some "o1"⟩)]⟩
        [⟨⟨iUSD, 100, some "o1"⟩, "E:USD/locked", "E", "WITHDRAWAL (FILL ORDER)"⟩,
         ⟨⟨iBTC, 1/200, some "o1"⟩, "E", "E:BTC/locked", "DEPOSIT (TRADED)"⟩]
        (Quantity.free (Quantity.mulRate ⟨iUSD, 100, some "o1"⟩ exE.commission))
        (some "o1") "LOCK BUY COMMISSION" =
        .ok (⟨iUSD, 1/10, some "o1"⟩,
             ⟨exE, iUSD, 1000, ⟨iUSD, 8999/10, none⟩, [(some "o1", ⟨iUSD, 1/5, some "o1"⟩)]⟩,
             [⟨⟨iUSD, 100, some "o1"⟩, "E:USD/locked", "E", "WITHDRAWAL (FILL ORDER)"⟩,
              ⟨⟨iBTC, 1/200, some "o1"⟩, "E", "E:BTC/locked", "DEPOSIT (TRADED)"⟩,
              ⟨⟨iUSD, 1/10, some "o1"⟩, "E:USD/free", "E:USD/locked",
               "LOCK (LOCK BUY COMMISSION)"⟩]) := by
      rw [hcm]
      exact buyL
    have h := (claim_C3 wUSD wBTC [] ⟨iUSD, 100, some "o1"⟩ pairUB tC1 sfC1 tfC1 lfC1
        ⟨iUSD, 100, some "o1"⟩ ⟨iBTC, 1/200, some "o1"⟩ ⟨iUSD, 1/10, some "o1"⟩
        ⟨iUSD, 1/10, some "o1"⟩
        ⟨exE, iUSD, 1000, ⟨iUSD, 900, none⟩, [(some "o1", ⟨iUSD, 1/10, some "o1"⟩)]⟩
        ⟨exE, iBTC, 0, ⟨iBTC, 0, none⟩, [(some "o1", ⟨iBTC, 1/200, some "o1"⟩)]⟩
        ⟨exE, iUSD, 1000, ⟨iUSD, 8999/10, none⟩, [(some "o1", ⟨iUSD, 1/5, some "o1"⟩)]⟩
        ⟨exE, iUSD, 1000, ⟨iUSD, 8999/10, none⟩, [(some "o1", ⟨iUSD, 1/10, some "o1"⟩)]⟩
        _ _ _ _ "o1").1
        transferBuyEval hh1 hh2 hh3 buyW2 rfl
        (by norm_num [Quantity.mulRate, Quantity.free, wUSD, exE])
        (by intro e he
            simp [lookupL] at he
            subst he
            norm_num)
    obtain ⟨hcom, hsf, htf⟩ := h
    refine ⟨?_, hsf, htf⟩
    rw [hcom]
    norm_num [wUSD, exE]
  · have hq : Quantity.quantize ⟨iBTC, (1/200:ℚ), some "o2"⟩ = ⟨iBTC, 1/200, some "o2"⟩ := by
      norm_num [Quantity.quantize, iBTC, qz, rndHalfEven]
    have hcm : Quantity.free (Quantity.mulRate ⟨iUSD, (100:ℚ), some "o2"⟩ exE.commission) =
        ⟨iUSD, 1/10, none⟩ := by
      norm_num [Quantity.free, Quantity.mulRate, exE]
    have hcv : Quantity.convert ⟨iBTC, (1/200:ℚ), some "o2"⟩ pairUB =
        ⟨iUSD, 100, some "o2"⟩ := by
      norm_num [Quantity.convert, pairUB, iUSD, iBTC]
    have hh1 : wBTC2.withdraw [] (Quantity.quantize ⟨iBTC, 1/200, some "o2"⟩) "FILL ORDER" =
        .ok (⟨iBTC, 1/200, some "o2"⟩,
             ⟨exE, iBTC, 1, ⟨iBTC, 1, none⟩, [(some "o2", ⟨iBTC, 0, some "o2"⟩)]⟩,
             [⟨⟨iBTC, 1/200, some "o2"⟩, "E:BTC/locked", "E", "WITHDRAWAL (FILL ORDER)"⟩]) := by
      rw [hq]
      exact sellW1
    have hh2 : Wallet.deposit ⟨exE, iUSD, 5, ⟨iUSD, 5, none⟩, []⟩
        [⟨⟨iBTC, 1/200, some "o2"⟩, "E:BTC/locked", "E", "WITHDRAWAL (FILL ORDER)"⟩]
        (Quantity.convert ⟨iBTC, 1/200, some "o2"⟩ pairUB) "TRADED" =
        .ok (⟨iUSD, 100, some "o2"⟩,
             ⟨exE, iUSD, 5, ⟨iUSD, 5, none⟩, [(some "o2", ⟨iUSD, 100, some "o2"⟩)]⟩,
             [⟨⟨iBTC, 1/200, some "o2"⟩, "E:BTC/locked", "E", "WITHDRAWAL (FILL ORDER)"⟩,
              ⟨⟨iUSD, 100, some "o2"⟩, "E", "E:USD/locked", "DEPOSIT (TRADED)"⟩]) := by
      rw [hcv]
      exact sellD
    have hh3 : Wallet.lock ⟨exE, iUSD, 5, ⟨iUSD, 5, none⟩, [(some "o2", ⟨iUSD, 100, some "o2"⟩)]⟩
        [⟨⟨iBTC, 1/200, some "o2"⟩, "E:BTC/locked", "E", "WITHDRAWAL (FILL ORDER)"⟩,
         ⟨⟨iUSD, 100, some "o2"⟩, "E", "E:USD/locked", "DEPOSIT (TRADED)"⟩]
        (Quantity.free (Quantity.mulRate ⟨iUSD, 100, some "o2"⟩ exE.commission))
        (some "o2") "LOCK SELL COMMISSION" =
        .ok (⟨iUSD, 1/10, some "o2"⟩,
             ⟨exE, iUSD, 5, ⟨iUSD, 49/10, none⟩, [(some "o2", ⟨iUSD, 1001/10, some "o2"⟩)]⟩,
             [⟨⟨iBTC, 1/200, some "o2"⟩, "E:BTC/locked", "E", "WITHDRAWAL (FILL ORDER)"⟩,
              ⟨⟨iUSD, 100, some "o2"⟩, "E", "E:USD/locked", "DEPOSIT (TRADED)"⟩,
              ⟨⟨iUSD, 1/10, some "o2"⟩, "E:USD/free", "E:USD/locked",
               "LOCK (LOCK SELL COMMISSION)"⟩]) := by
      rw [hcm]
      exact sellL
    have h := (claim_C3 wBTC2 wUSD2 [] ⟨iBTC, 1/200, some "o2"⟩ pairUB tS sfS tfS lfS
        ⟨iBTC, 1/200, some "o2"⟩ ⟨iUSD, 100, some "o2"⟩ ⟨iUSD, 1/10, some "o2"⟩
        ⟨iUSD, 1/10, some "o2"⟩
        ⟨exE, iBTC, 1, ⟨iBTC, 1, none⟩, [(some "o2", ⟨iBTC, 0, some "o2"⟩)]⟩
        ⟨exE, iUSD, 5, ⟨iUSD, 5, none⟩, [(some "o2", ⟨iUSD, 100, some "o2"⟩)]⟩
        ⟨exE, iUSD, 5, ⟨iUSD, 49/10, none⟩, [(some "o2", ⟨iUSD, 1001/10, some "o2"⟩)]⟩
        ⟨exE, iUSD, 5, ⟨iUSD, 49/10, none⟩, [(some "o2", ⟨iUSD, 100, some "o2"⟩)]⟩
        _ _ _ _ "o2").2
        transferSellEval hh1 hh2 hh3 sellW2 rfl
        (by norm_num [Quantity.mulRate, Quantity.free, wBTC2, exE])
        (by intro e he
            simp [lookupL] at he
            subst he
            norm_num)
    obtain ⟨hcom, hsf, htf⟩ := h
    refine ⟨?_, hsf, htf⟩
    rw [hcom]
    norm_num [wBTC2, exE]

end TensorTrade
